import Mathlib

/-!
Verification development for the event-router API repository.

Shallow embedding of the core components:
  * `src/router/router_config.py` — model-family routing tables and lookups;
  * `src/api/stream_manager.py` — the stream broadcaster (history buffer,
    subscriber registry keyed by `"project:conversation:model"` strings,
    filtered fan-out, historical queries);
  * `src/models/gemini_client.py` — `parse_project_json`, `normalize_project`
    and the `generate_text` fallback loop;
  * `src/api/routes/project.py` — the generation and modification pipelines'
    control flow (provider calls, parse retry ladder, emitted event traces).

Python strings are modelled as Lean `String`; Python `None`-able strings as
`Option String` (`none` = Python `None`).  Helper functions `pyLower`,
`pyStrip`, `pyTruthy`, `pyOrStr` reproduce the exact Python semantics the
source relies on (ASCII case folding, whitespace stripping, falsiness of
`None` and `""`, and the value-returning `or` operator).  Fallible Python
code is modelled with `Option`/`Except`; code that the source wraps in a
catch-all `except` block is modelled as a total function returning `Option`.
All definitions are executable.
-/

/-- ASCII lower-casing of one character, as Python `str.lower` does for the
ASCII range used by the routing tables. -/
def lowerChar (c : Char) : Char :=
  if 'A' ≤ c ∧ c ≤ 'Z' then Char.ofNat (c.toNat + 32) else c

/-- Python `str.lower()` (ASCII range). -/
def pyLower (s : String) : String := ⟨s.data.map lowerChar⟩

/-- Python whitespace characters recognised by `str.strip()`. -/
def isPySpace (c : Char) : Bool :=
  c = ' ' ∨ c = '\t' ∨ c = '\n' ∨ c = '\r' ∨ c = '\x0b' ∨ c = '\x0c'

/-- Python `str.strip()`: drop leading and trailing whitespace. -/
def pyStrip (s : String) : String :=
  ⟨((s.data.dropWhile isPySpace).reverse.dropWhile isPySpace).reverse⟩

/-- Truthiness of an optional Python string: `None` and `""` are falsy. -/
def pyTruthy : Option String → Bool
  | none => false
  | some s => s ≠ ""

/-- Python `a or b` on optional strings: returns `b` when `a` is falsy. -/
def pyOrStr (a b : Option String) : Option String :=
  if pyTruthy a then a else b

/-- Python `a or d` where `d` is a plain (non-`None`) default string. -/
def pyOrDefault (a : Option String) (d : String) : String :=
  match a with
  | none => d
  | some s => if s = "" then d else s

/-- First-match association lookup, the behaviour of `dict.get(k)` on the
static routing tables (whose keys are distinct literals). -/
def lookupAssoc {α : Type} (k : String) : List (String × α) → Option α
  | [] => none
  | (k', v) :: rest => if k = k' then some v else lookupAssoc k rest

/-- `MODEL_FAMILY_MAP` from `src/router/router_config.py`: maps API family
names to internal model keys. -/
def MODEL_FAMILY_MAP : List (String × String) :=
  [("gemini", "gemini"),
   ("anthropic", "claude"),
   ("claude", "claude"),
   ("openai", "gpt"),
   ("gpt", "gpt")]

/-- One entry of `ROUTER_CONFIG`. -/
structure RouterEntry where
  router_model : String
  main_model : String
  provider : String
deriving DecidableEq

/-- `ROUTER_CONFIG` from `src/router/router_config.py`. -/
def ROUTER_CONFIG : List (String × RouterEntry) :=
  [("gemini", ⟨"gemini-2.0-flash-lite", "gemini-3-pro-preview", "gemini"⟩),
   ("claude", ⟨"claude-haiku-4-5-20251001", "claude-opus-4-5-20251101", "anthropic"⟩),
   ("gpt", ⟨"gpt-4o-mini", "gpt-5.2", "openai"⟩)]

/-- `normalize_model_family` from `src/router/router_config.py`:
`if not model_family: return "gemini"`, then lower-case, strip, and look up in
`MODEL_FAMILY_MAP` with default `"gemini"`. -/
def normalize_model_family (model_family : Option String) : String :=
  match model_family with
  | none => "gemini"
  | some s =>
      if s = "" then "gemini"
      else (lookupAssoc (pyStrip (pyLower s)) MODEL_FAMILY_MAP).getD "gemini"

/-- The `ROUTER_CONFIG` entry for a family:
`ROUTER_CONFIG.get(internal_key, ROUTER_CONFIG["gemini"])`. -/
def routerEntryFor (model_family : Option String) : RouterEntry :=
  (lookupAssoc (normalize_model_family model_family) ROUTER_CONFIG).getD
    ⟨"gemini-2.0-flash-lite", "gemini-3-pro-preview", "gemini"⟩

/-- `get_router_model` from `src/router/router_config.py`. -/
def get_router_model (model_family : Option String) : String :=
  (routerEntryFor model_family).router_model

/-- `get_main_model` from `src/router/router_config.py`. -/
def get_main_model (model_family : Option String) : String :=
  (routerEntryFor model_family).main_model

/-- `get_provider` from `src/router/router_config.py`. -/
def get_provider (model_family : Option String) : String :=
  (routerEntryFor model_family).provider

/-- `get_modification_model` from `src/router/router_config.py`:
`complexity.lower() if complexity else "medium"`; `"complex"` selects the
main model, anything else the router model. -/
def get_modification_model (model_family : Option String) (complexity : Option String) : String :=
  let complexity_lower :=
    match complexity with
    | none => "medium"
    | some c => if c = "" then "medium" else pyLower c
  if complexity_lower = "complex" then get_main_model model_family
  else get_router_model model_family

/-- An event dictionary as the stream manager reads it: the four fields it
accesses (`project_id`, `conversation_id`, top-level `model_name`, and
`payload["model_name"]`), plus the `event_type` and a numeric id standing for
the remaining payload (enough to distinguish events). -/
structure Event where
  project_id : Option String
  conversation_id : Option String
  model_name : Option String
  payload_model_name : Option String
  event_type : String
  event_id : Nat
deriving DecidableEq

/-- State of `StreamManager` from `src/api/stream_manager.py`: `_streams`
maps stream-key strings to lists of queues (each queue modelled as the list
of events put into it), and `_all_events` is the history buffer. -/
structure StreamState where
  streams : List (String × List (List Event))
  all_events : List Event

/-- `StreamManager._get_stream_key`: the f-string
`"{project_id or '*'}:{conversation_id or '*'}:{model_name or '*'}"`. -/
def get_stream_key (project_id conversation_id model_name : Option String) : String :=
  pyOrDefault project_id "*" ++ ":" ++ pyOrDefault conversation_id "*" ++ ":" ++
    pyOrDefault model_name "*"

/-- Append one queue under a key, with `defaultdict(list)` semantics. -/
def addQueue : List (String × List (List Event)) → String → List (String × List (List Event))
  | [], k => [(k, [[]])]
  | (k', qs) :: rest, k =>
      if k' = k then (k', qs ++ [[]]) :: rest else (k', qs) :: addQueue rest k

/-- `StreamManager.register_stream`: registers a fresh queue under the
computed stream key. -/
def register_stream (st : StreamState) (project_id conversation_id model_name : Option String) :
    StreamState :=
  ⟨addQueue st.streams (get_stream_key project_id conversation_id model_name), st.all_events⟩

/-- The history-buffer update in `StreamManager.broadcast_event`:
append, then `if len > 1000: keep the last 1000`. -/
def pushHistory (buf : List Event) (event : Event) : List Event :=
  let buf' := buf ++ [event]
  if 1000 < buf'.length then buf'.drop (buf'.length - 1000) else buf'

/-- `event.get("model_name") or event.get("payload", {}).get("model_name")`. -/
def eventModelName (event : Event) : Option String :=
  pyOrStr event.model_name event.payload_model_name

/-- Split a character list at the first occurrence of `sep`. -/
def splitFirstAux (sep : Char) : List Char → Option (List Char × List Char)
  | [] => none
  | c :: rest =>
      if c = sep then some ([], rest)
      else
        match splitFirstAux sep rest with
        | none => none
        | some (pre, post) => some (c :: pre, post)

/-- `stream_key.split(":", 2)` followed by the three defaulted projections
`parts[i] if len(parts) > i else "*"` in `StreamManager.broadcast_event`. -/
def split2Key (s : String) : String × String × String :=
  match splitFirstAux ':' s.data with
  | none => (s, "*", "*")
  | some (p, rest) =>
      match splitFirstAux ':' rest with
      | none => (⟨p⟩, ⟨rest⟩, "*")
      | some (c, rest2) => (⟨p⟩, ⟨c⟩, ⟨rest2⟩)

/-- The three `continue` guards of `StreamManager.broadcast_event`, negated:
`true` exactly when the event is delivered to a stream with the given parsed
key parts. -/
def keyMatch (project_id conversation_id model_filter : String) (event : Event) : Bool :=
  (project_id == "*" || event.project_id == some project_id) &&
  (conversation_id == "*" || event.conversation_id == some conversation_id) &&
  (model_filter == "*" || !(pyTruthy (eventModelName event)) ||
    (pyLower ((eventModelName event).getD "") == pyLower model_filter))

/-- `StreamManager.broadcast_event`: append to the bounded history buffer,
then put the event on every queue whose stream key matches. -/
def broadcast_event (st : StreamState) (event : Event) : StreamState :=
  let all' := pushHistory st.all_events event
  let streams' := st.streams.map (fun entry =>
    let parts := split2Key entry.1
    if keyMatch parts.1 parts.2.1 parts.2.2 event then
      (entry.1, entry.2.map (fun q => q ++ [event]))
    else entry)
  ⟨streams', all'⟩

/-- A sequence of `broadcast_event` calls. -/
def publishAll (st : StreamState) (events : List Event) : StreamState :=
  events.foldl broadcast_event st

/-- `StreamManager.get_historical_events`: filter the history buffer by the
optional `project_id`, `conversation_id` and `model_name` arguments. -/
def get_historical_events (st : StreamState)
    (project_id conversation_id model_name : Option String) : List Event :=
  st.all_events.filter (fun event =>
    !(pyTruthy project_id && !(event.project_id == project_id)) &&
    !(pyTruthy conversation_id && !(event.conversation_id == conversation_id)) &&
    !(pyTruthy model_name && pyTruthy (eventModelName event) &&
      !(pyLower ((eventModelName event).getD "") == pyLower (model_name.getD ""))))

/-- The last (at most) 1000 elements of a list. -/
def keepLast1000 (l : List Event) : List Event := l.drop (l.length - 1000)

/-- Test events for the C2 witness: 1001 pairwise-distinct events. -/
def testEvents1001 : List Event :=
  (List.range 1001).map (fun i => ⟨none, none, none, none, "chat.message", i⟩)

/-- Concrete events for witnesses. -/
def evP1 : Event := ⟨some "p1", none, none, none, "chat.message", 1⟩

def evP2 : Event := ⟨some "p2", none, none, none, "chat.message", 2⟩

def evGpt : Event := ⟨some "p1", none, some "GPT-4o", none, "progress.update", 3⟩

def evNoModel : Event := ⟨none, none, none, none, "thinking.start", 4⟩

/-- JSON values as produced by Python `json.loads`.  Number literals are
modelled as integers: no claim involves fractional numbers, and the parser
below consumes (without interpreting) fraction and exponent parts. -/
inductive JsonValue where
  | null
  | bool (b : Bool)
  | num (n : Int)
  | str (s : String)
  | arr (items : List JsonValue)
  | obj (fields : List (String × JsonValue))

/-- Python `dict` lookup on the field list (fields are kept duplicate-free by
`insertField`, mirroring `dict` insertion semantics). -/
def dictGet (k : String) : List (String × JsonValue) → Option JsonValue
  | [] => none
  | (k', v) :: rest => if k' = k then some v else dictGet k rest

/-- Python `dict` assignment: overwrite in place, else append. -/
def insertField (fields : List (String × JsonValue)) (k : String) (v : JsonValue) :
    List (String × JsonValue) :=
  match fields with
  | [] => [(k, v)]
  | (k', v') :: rest =>
      if k' = k then (k', v) :: rest else (k', v') :: insertField rest k v

/-- JSON whitespace. -/
def isJsonWs (c : Char) : Bool := c = ' ' ∨ c = '\t' ∨ c = '\n' ∨ c = '\r'

/-- Skip leading JSON whitespace. -/
def skipWs (cs : List Char) : List Char := cs.dropWhile isJsonWs

/-- Decimal digit test. -/
def isDigitChar (c : Char) : Bool := '0' ≤ c ∧ c ≤ '9'

/-- Value of a decimal digit character. -/
def digitVal (c : Char) : Nat := c.toNat - 48

/-- Value of a hexadecimal digit character. -/
def hexVal (c : Char) : Option Nat :=
  if '0' ≤ c ∧ c ≤ '9' then some (c.toNat - 48)
  else if 'a' ≤ c ∧ c ≤ 'f' then some (c.toNat - 87)
  else if 'A' ≤ c ∧ c ≤ 'F' then some (c.toNat - 55)
  else none

/-- Consume a run of decimal digits, extending the accumulator. -/
def digitsToNat (acc : Nat) : List Char → Nat × List Char
  | [] => (acc, [])
  | c :: rest =>
      if isDigitChar c then digitsToNat (acc * 10 + digitVal c) rest else (acc, c :: rest)

/-- Parse the body of a JSON string after the opening quote, handling the
escapes `json.loads` accepts and rejecting raw control characters (strict
mode). -/
def parseStringBody : List Char → Option (List Char × List Char)
  | [] => none
  | '\x22' :: rest => some ([], rest)
  | '\x5c' :: rest =>
      match rest with
      | '\x22' :: r => (parseStringBody r).map (fun p => ('\x22' :: p.1, p.2))
      | '\x5c' :: r => (parseStringBody r).map (fun p => ('\x5c' :: p.1, p.2))
      | '/' :: r => (parseStringBody r).map (fun p => ('/' :: p.1, p.2))
      | 'b' :: r => (parseStringBody r).map (fun p => ('\x08' :: p.1, p.2))
      | 'f' :: r => (parseStringBody r).map (fun p => ('\x0c' :: p.1, p.2))
      | 'n' :: r => (parseStringBody r).map (fun p => ('\n' :: p.1, p.2))
      | 'r' :: r => (parseStringBody r).map (fun p => ('\r' :: p.1, p.2))
      | 't' :: r => (parseStringBody r).map (fun p => ('\t' :: p.1, p.2))
      | 'u' :: h1 :: h2 :: h3 :: h4 :: r =>
          match hexVal h1, hexVal h2, hexVal h3, hexVal h4 with
          | some a, some b, some c, some d =>
              (parseStringBody r).map
                (fun p => (Char.ofNat (((a * 16 + b) * 16 + c) * 16 + d) :: p.1, p.2))
          | _, _, _, _ => none
      | _ => none
  | c :: rest =>
      if c.toNat < 32 then none
      else (parseStringBody rest).map (fun p => (c :: p.1, p.2))

/-- Consume an optional fraction part. -/
def skipFraction (cs : List Char) : List Char :=
  match cs with
  | '.' :: d :: rest => if isDigitChar d then (digitsToNat 0 (d :: rest)).2 else '.' :: d :: rest
  | other => other

/-- Consume an optional exponent part. -/
def skipExponent (cs : List Char) : List Char :=
  match cs with
  | 'e' :: '+' :: d :: rest =>
      if isDigitChar d then (digitsToNat 0 (d :: rest)).2 else 'e' :: '+' :: d :: rest
  | 'e' :: '-' :: d :: rest =>
      if isDigitChar d then (digitsToNat 0 (d :: rest)).2 else 'e' :: '-' :: d :: rest
  | 'e' :: d :: rest =>
      if isDigitChar d then (digitsToNat 0 (d :: rest)).2 else 'e' :: d :: rest
  | 'E' :: '+' :: d :: rest =>
      if isDigitChar d then (digitsToNat 0 (d :: rest)).2 else 'E' :: '+' :: d :: rest
  | 'E' :: '-' :: d :: rest =>
      if isDigitChar d then (digitsToNat 0 (d :: rest)).2 else 'E' :: '-' :: d :: rest
  | 'E' :: d :: rest =>
      if isDigitChar d then (digitsToNat 0 (d :: rest)).2 else 'E' :: d :: rest
  | other => other

/-- Parse a JSON number (integer value; fraction/exponent consumed). -/
def parseNumber (cs : List Char) : Option (JsonValue × List Char) :=
  match cs with
  | '-' :: c :: rest =>
      if isDigitChar c then
        let p := digitsToNat (digitVal c) rest
        some (.num (-(p.1 : Int)), skipExponent (skipFraction p.2))
      else none
  | c :: rest =>
      if isDigitChar c then
        let p := digitsToNat (digitVal c) rest
        some (.num (p.1 : Int), skipExponent (skipFraction p.2))
      else none
  | [] => none

mutual

/-- Fuel-bounded recursive-descent JSON value parser (the model of Python
`json.loads`; the fuel passed by `json_loads` always suffices). -/
def parseVal (fuel : Nat) (cs : List Char) : Option (JsonValue × List Char) :=
  match fuel with
  | 0 => none
  | fuel + 1 =>
      match skipWs cs with
      | [] => none
      | c :: rest =>
          if c = '\x7b' then parseObjFields fuel rest []
          else if c = '\x5b' then parseArrItems fuel rest []
          else if c = '\x22' then
            match parseStringBody rest with
            | some (s, rest2) => some (.str ⟨s⟩, rest2)
            | none => none
          else if c = 't' then
            match rest with
            | 'r' :: 'u' :: 'e' :: r => some (.bool true, r)
            | _ => none
          else if c = 'f' then
            match rest with
            | 'a' :: 'l' :: 's' :: 'e' :: r => some (.bool false, r)
            | _ => none
          else if c = 'n' then
            match rest with
            | 'u' :: 'l' :: 'l' :: r => some (.null, r)
            | _ => none
          else parseNumber (c :: rest)

/-- Parse object members; entered right after `\x7b` or after a comma, so a
closing brace is accepted only before the first member (no trailing
commas, as in strict `json.loads`). -/
def parseObjFields (fuel : Nat) (cs : List Char) (acc : List (String × JsonValue)) :
    Option (JsonValue × List Char) :=
  match fuel with
  | 0 => none
  | fuel + 1 =>
      match skipWs cs with
      | [] => none
      | c :: rest =>
          if c = '\x7d' then
            if acc.isEmpty then some (.obj acc, rest) else none
          else if c = '\x22' then
            match parseStringBody rest with
            | none => none
            | some (key, rest2) =>
                match skipWs rest2 with
                | ':' :: rest3 =>
                    match parseVal fuel rest3 with
                    | none => none
                    | some (v, rest4) =>
                        match skipWs rest4 with
                        | ',' :: rest5 => parseObjFields fuel rest5 (insertField acc ⟨key⟩ v)
                        | '\x7d' :: rest5 => some (.obj (insertField acc ⟨key⟩ v), rest5)
                        | _ => none
                | _ => none
          else none

/-- Parse array items; entered right after `\x5b` or after a comma. -/
def parseArrItems (fuel : Nat) (cs : List Char) (acc : List JsonValue) :
    Option (JsonValue × List Char) :=
  match fuel with
  | 0 => none
  | fuel + 1 =>
      match skipWs cs with
      | [] => none
      | c :: rest =>
          if c = '\x5d' then
            if acc.isEmpty then some (.arr acc, rest) else none
          else
            match parseVal fuel (c :: rest) with
            | none => none
            | some (v, rest2) =>
                match skipWs rest2 with
                | ',' :: rest3 => parseArrItems fuel rest3 (acc ++ [v])
                | '\x5d' :: rest3 => some (.arr (acc ++ [v]), rest3)
                | _ => none

end

/-- Python `json.loads`: parse one value and require only whitespace after
it; any failure is a `JSONDecodeError`, modelled as `none`. -/
def json_loads (s : String) : Option JsonValue :=
  match parseVal (s.length * 2 + 16) s.data with
  | some (v, rest) => if (skipWs rest).isEmpty then some v else none
  | none => none

/-- Split a character list at the first triple-backtick fence. -/
def splitAtFence : List Char → Option (List Char × List Char)
  | '\x60' :: '\x60' :: '\x60' :: rest => some ([], rest)
  | c :: rest =>
      match splitAtFence rest with
      | none => none
      | some (pre, post) => some (c :: pre, post)
  | [] => none

/-- Drop a `json` language tag right after an opening fence. -/
def dropLangTag (cs : List Char) : List Char :=
  match cs with
  | 'j' :: 's' :: 'o' :: 'n' :: rest => rest
  | _ => cs

/-- Modelled from the spec: `src/models/json_parser.py` (imported by
`parse_project_json`) is absent from the repository.  Spec §4.2 step 1:
"attempt to locate a fenced or otherwise delimited JSON region (e.g., content
between a clearly marked code block)".  Returns the content between the first
pair of triple-backtick fences (skipping a `json` tag), `none` when no
complete fenced region exists. -/
def extract_json_from_text (text : String) : Option String :=
  match splitAtFence text.data with
  | none => none
  | some (_, afterOpen) =>
      match splitAtFence (dropLangTag afterOpen) with
      | none => none
      | some (content, _) => some ⟨content⟩

/-- Remove commas that directly precede (up to whitespace) a closing brace
or bracket. -/
def removeTrailingCommas : List Char → List Char
  | [] => []
  | ',' :: rest =>
      match skipWs rest with
      | '\x7d' :: _ => removeTrailingCommas rest
      | '\x5d' :: _ => removeTrailingCommas rest
      | _ => ',' :: removeTrailingCommas rest
  | c :: rest => c :: removeTrailingCommas rest

/-- Modelled from the spec: `src/models/json_parser.py` is absent.  Spec §4.2
step 3 describes a structural repair pass for common issues such as trailing
commas; modelled as trailing-comma removal. -/
def repairJson (s : String) : String := ⟨removeTrailingCommas s.data⟩

/-- Modelled from the spec: `src/models/json_parser.py` is absent.  Spec §4.2
steps: direct parse, then structural repair and one retried parse; "if all
fail, return no result — never raises to the caller". -/
def parse_json_with_fallback (s : String) : Option JsonValue :=
  match json_loads s with
  | some v => some v
  | none => json_loads (repairJson s)

/-- Python `text.find(c)` (as `Option` instead of `-1`). -/
def pyFindChar (s : String) (c : Char) : Option Nat := s.data.findIdx? (· = c)

/-- Python `text.rfind(c)` (as `Option` instead of `-1`). -/
def pyRFindChar (s : String) (c : Char) : Option Nat :=
  match s.data.reverse.findIdx? (· = c) with
  | none => none
  | some i => some (s.length - 1 - i)

/-- Python slice `s[a:b]`. -/
def pySlice (s : String) (a b : Nat) : String := ⟨(s.data.drop a).take (b - a)⟩

/-- The candidate JSON substring chosen by `parse_project_json` in
`src/models/gemini_client.py`: the fenced region from
`extract_json_from_text` when there is one, otherwise the substring from the
first `\x7b` to the last `\x7d` (inclusive); `none` when either brace is
missing. -/
def candidate_json_str (text : String) : Option String :=
  match extract_json_from_text text with
  | some s => some s
  | none =>
      match pyFindChar text '\x7b', pyRFindChar text '\x7d' with
      | some start, some stop => some (pySlice text start (stop + 1))
      | _, _ => none

/-- The scan in `parse_project_json` case 2: first list item that is a dict
with a `"project"` key; returns that key's value (unchecked, as in the
source). -/
def findProjectInList : List JsonValue → Option JsonValue
  | [] => none
  | .obj fields :: rest =>
      match dictGet "project" fields with
      | some v => some v
      | none => findProjectInList rest
  | _ :: rest => findProjectInList rest

/-- The three shape cases at the end of `parse_project_json`
(`src/models/gemini_client.py` lines 456–487): a dict with a dict-valued
`"project"` key yields the inner dict; a list is scanned for such an item; a
dict with a `"files"` key is already the inner object; anything else yields
`None`. -/
def classify_raw : JsonValue → Option JsonValue
  | .obj fields =>
      match dictGet "project" fields with
      | some (.obj pf) => some (.obj pf)
      | _ =>
          match dictGet "files" fields with
          | some _ => some (.obj fields)
          | none => none
  | .arr items => findProjectInList items
  | _ => none

/-- `parse_project_json` from `src/models/gemini_client.py`: empty input and
every failure path return `None` (the whole body is wrapped in a catch-all
`except` that returns `None`, so the function is total — modelled by the
`Option` result type with no error channel). -/
def parse_project_json (text : String) : Option JsonValue :=
  if text = "" then none
  else
    match candidate_json_str text with
    | none => none
    | some json_str =>
        match parse_json_with_fallback json_str with
        | some raw => classify_raw raw
        | none =>
            match json_loads json_str with
            | some raw => classify_raw raw
            | none => none

/-- Substring test for Python `needle in haystack` on strings. -/
def isSubstring (needle : List Char) : List Char → Bool
  | [] => needle.isEmpty
  | c :: rest => needle.isPrefixOf (c :: rest) || isSubstring needle rest

/-- Python `key in value` for the value shapes `normalize_project` can see:
key membership for dicts, element equality for lists, substring for strings,
`TypeError` otherwise. -/
def pyContains (j : JsonValue) (k : String) : Except String Bool :=
  match j with
  | .obj fields => .ok (dictGet k fields).isSome
  | .arr items =>
      .ok (items.any (fun it => match it with | .str s => s = k | _ => false))
  | .str s => .ok (isSubstring k.data s.data)
  | _ => .error "TypeError: argument is not iterable"

/-- Python `value[key]` with a string key. -/
def pySubscript (j : JsonValue) (k : String) : Except String JsonValue :=
  match j with
  | .obj fields =>
      match dictGet k fields with
      | some v => .ok v
      | none => .error "KeyError"
  | _ => .error "TypeError: value is not subscriptable by a string"

/-- Python `value.get(key)`: only dicts have `.get`. -/
def pyGet (j : JsonValue) (k : String) : Except String (Option JsonValue) :=
  match j with
  | .obj fields => .ok (dictGet k fields)
  | _ => .error "AttributeError: object has no attribute get"

/-- Python `value[key] = v` item assignment. -/
def pySetField (j : JsonValue) (k : String) (v : JsonValue) : Except String JsonValue :=
  match j with
  | .obj fields => .ok (.obj (insertField fields k v))
  | _ => .error "TypeError: object does not support item assignment"

/-- Python `dict.update`: fold the new fields in, in order. -/
def updateFields (acc : List (String × JsonValue)) : List (String × JsonValue) →
    List (String × JsonValue)
  | [] => acc
  | (k, v) :: rest => updateFields (insertField acc k v) rest

/-- The `fixed` accumulator of `normalize_project`: merge the dict items of
a `files` list, skipping non-dict items. -/
def mergeFileItems (items : List JsonValue) : List (String × JsonValue) :=
  items.foldl (fun acc it => match it with | .obj f => updateFields acc f | _ => acc) []

/-- `if isinstance(project, list): project = project[0]` — `IndexError` on an
empty list. -/
def normListHead : JsonValue → Except String JsonValue
  | .arr [] => .error "IndexError: list index out of range"
  | .arr (x :: _) => .ok x
  | p => .ok p

/-- `if "project" in project: project = project["project"]`. -/
def normUnwrapProject (p : JsonValue) : Except String JsonValue :=
  match pyContains p "project" with
  | .error e => .error e
  | .ok true => pySubscript p "project"
  | .ok false => .ok p

/-- `files = project.get("files"); if isinstance(files, list): ... merge`. -/
def normFixFiles (p : JsonValue) : Except String JsonValue :=
  match pyGet p "files" with
  | .error e => .error e
  | .ok (some (.arr items)) => pySetField p "files" (.obj (mergeFileItems items))
  | .ok _ => .ok p

/-- `if not isinstance(project.get("files"), dict): raise ValueError`. -/
def normCheckFiles (p : JsonValue) : Except String JsonValue :=
  match pyGet p "files" with
  | .error e => .error e
  | .ok (some (.obj _)) => .ok p
  | .ok _ => .error "ValueError: project.files must be a dict"

/-- `normalize_project` from `src/models/gemini_client.py`, with Python
runtime exceptions modelled as `Except.error`. -/
def normalize_project (p : JsonValue) : Except String JsonValue :=
  match normListHead p with
  | .error e => .error e
  | .ok p1 =>
      match normUnwrapProject p1 with
      | .error e => .error e
      | .ok p2 =>
          match normFixFiles p2 with
          | .error e => .error e
          | .ok p3 => normCheckFiles p3

/-- Does a JSON value have a `"project"` key (for the list-scan lemma)? -/
def hasProjectKey : JsonValue → Bool
  | .obj fields => (dictGet "project" fields).isSome
  | _ => false

/-- Outcome of one provider call (`generate_text` of a provider client):
returned text, or a raised provider exception. -/
inductive ProviderResult where
  | ok (text : String)
  | err (msg : String)

/-- Modelled from the spec: the `events` module (`EventEmitter`) imported by
`src/api/routes/project.py` is absent from the repository.  Spec §4.4 fixes
the emitted event vocabulary; each `emit_x` call of the pipeline appends one
envelope of the corresponding type, so a run's side effects are modelled as
the list of emitted envelope types (with the payload fields the claims
depend on). -/
inductive Ev where
  | chatMessage (text : String)
  | chatQuestion
  | progressInit
  | progressUpdate (step status : String)
  | thinkingStart
  | thinkingEnd
  | error (scope : String)
  | streamComplete
  | streamFailed

/-- Result of a pipeline run: the emitted event trace, the outcome, and the
number of project-generation provider calls made. -/
inductive GenOutcome where
  | success (project : JsonValue)
  | parseFailure
  | providerError (msg : String)
  | saveError

structure RunResult where
  trace : List Ev
  outcome : GenOutcome
  calls : Nat

/-- Python truthiness of the parse result: `if not project:` in the pipeline
treats `None` and empty containers alike as extraction failure. -/
def pyTruthyJson : Option JsonValue → Bool
  | none => false
  | some .null => false
  | some (.bool b) => b
  | some (.num n) => n ≠ 0
  | some (.str s) => s ≠ ""
  | some (.arr items) => !items.isEmpty
  | some (.obj fields) => !fields.isEmpty

/-- `output.strip().endswith(chr(125))` from the generation retry branch. -/
def endsWithCloseBrace (s : String) : Bool :=
  match (pyStrip s).data.getLast? with
  | some c => c = '\x7d'
  | none => false

/-- Events emitted by `generate_project` before the first provider call:
the opening chat message, the optional questionnaire block (a chat message,
one `chat.question` per question, a closing chat message), `progress.init`,
two progress updates and `thinking.start`. -/
def generatePrelude (askQuestions : Bool) (nQuestions : Nat) : List Ev :=
  [.chatMessage "Starting project generation..."] ++
  (if askQuestions then
    [.chatMessage "I need to gather some additional information to create the perfect page for you."] ++
    List.replicate nQuestions .chatQuestion ++
    [.chatMessage "Proceeding with generation using defaults. You can provide questionnaire_answers in a follow-up request for more customization."]
  else []) ++
  [.progressInit,
   .progressUpdate "prepare" "completed",
   .progressUpdate "generate" "in_progress",
   .thinkingStart]

/-- The tail of `generate_project` after the retry ladder: terminal parse
failure emits a failed progress update, an `error` event and
`stream.failed` before raising; a truthy parse proceeds to saving (whose
exceptions abort the run with no further events) and on success emits
`stream.complete`.  (`getD .null` is only reached when `project` is truthy,
hence `some`.) -/
def generateFinish (evs : List Ev) (project : Option JsonValue) (saveOk : Bool) (calls : Nat) :
    RunResult :=
  if pyTruthyJson project then
    if saveOk then
      ⟨evs ++ [.progressUpdate "parse" "completed", .progressUpdate "save" "in_progress",
               .progressUpdate "save" "completed",
               .chatMessage "Base project generated successfully!", .streamComplete],
       .success (project.getD .null), calls⟩
    else
      ⟨evs ++ [.progressUpdate "parse" "completed", .progressUpdate "save" "in_progress"],
       .saveError, calls⟩
  else
    ⟨evs ++ [.progressUpdate "parse" "failed", .error "validation", .streamFailed],
     .parseFailure, calls⟩

/-- The generation segment of `generate_project`
(`src/api/routes/project.py` lines 211–359): provider call, parse, one
stricter-prompt retry only when extraction failed and the provider is not
gemini, then the terminal branch.  A raised provider call aborts the run
immediately (the exception propagates to the route's catch-all). -/
def generateRun (provider : String) (askQuestions : Bool) (nQuestions : Nat)
    (r1 r2 : ProviderResult) (saveOk : Bool) : RunResult :=
  let pre := generatePrelude askQuestions nQuestions
  match r1 with
  | .err m => ⟨pre, .providerError m, 1⟩
  | .ok out1 =>
      let mid := pre ++ [.thinkingEnd, .progressUpdate "generate" "completed",
                         .progressUpdate "parse" "in_progress"]
      let p1 := parse_project_json out1
      if ¬ pyTruthyJson p1 = true ∧ provider ≠ "gemini" then
        let retryEvs :=
          (if endsWithCloseBrace out1 then ([] : List Ev) else
            [.chatMessage "Response appears truncated. Retrying with higher token limit..."]) ++
          [.chatMessage "Retrying with stricter JSON prompt..."]
        match r2 with
        | .err m => ⟨mid ++ retryEvs, .providerError m, 2⟩
        | .ok out2 => generateFinish (mid ++ retryEvs) (parse_project_json out2) saveOk 2
      else generateFinish mid p1 saveOk 1

/-- The tail of `modify_project`: a falsy final parse emits only an `error`
event and raises; a truthy parse proceeds to saving and returns — in either
case no terminal stream event is emitted. -/
def modifyDone (evs : List Ev) (p : Option JsonValue) (saveOk : Bool) (calls : Nat) : RunResult :=
  if pyTruthyJson p then
    if saveOk then ⟨evs, .success (p.getD .null), calls⟩
    else ⟨evs, .saveError, calls⟩
  else ⟨evs ++ [.error "validation"], .parseFailure, calls⟩

/-- The main-model fallback of `modify_project`: taken (for any provider)
when the parse result is falsy and the modification model differs from the
family's main model. -/
def modifyFallback (mod_model main_model : String) (evs : List Ev)
    (p : Option JsonValue) (r3 : ProviderResult) (saveOk : Bool) (calls : Nat) : RunResult :=
  if pyTruthyJson p then modifyDone evs p saveOk calls
  else
    if mod_model ≠ main_model then
      let evs' := evs ++ [Ev.chatMessage ("Retrying with " ++ main_model ++ "...")]
      match r3 with
      | .err m => ⟨evs', .providerError m, calls + 1⟩
      | .ok out3 => modifyDone evs' (parse_project_json out3) saveOk (calls + 1)
    else modifyDone evs p saveOk calls

/-- The generation segment of `modify_project`
(`src/api/routes/project.py` lines 410–552): provider call, parse, one
stricter-prompt retry only for non-gemini providers, then the main-model
fallback, then the terminal branch. -/
def modifyRun (provider mod_model main_model : String)
    (r1 r2 r3 : ProviderResult) (saveOk : Bool) : RunResult :=
  let evs0 := [Ev.chatMessage "Starting project modification..."]
  match r1 with
  | .err m => ⟨evs0, .providerError m, 1⟩
  | .ok out1 =>
      let p1 := parse_project_json out1
      if ¬ pyTruthyJson p1 = true ∧ provider ≠ "gemini" then
        let evs1 := evs0 ++ [Ev.chatMessage "Retrying with stricter JSON prompt..."]
        match r2 with
        | .err m => ⟨evs1, .providerError m, 2⟩
        | .ok out2 =>
            modifyFallback mod_model main_model evs1 (parse_project_json out2) r3 saveOk 2
      else modifyFallback mod_model main_model evs0 p1 r3 saveOk 1

/-- One iteration structure of `generate_text` in
`src/models/gemini_client.py`: try each model in order, return the first
successful text, re-raise the last error. -/
def tryModelsLoop (oracle : String → ProviderResult) : List String → Except String String
  | [] => .error "No models available"
  | [m] =>
      match oracle m with
      | .ok t => .ok t
      | .err e => .error e
  | m :: rest =>
      match oracle m with
      | .ok t => .ok t
      | .err _ => tryModelsLoop oracle rest

/-- `generate_text` from `src/models/gemini_client.py`, abstracted over the
per-model provider outcome `oracle`. -/
def generate_text (oracle : String → ProviderResult) (model : String)
    (fallback_models : List String) : Except String String :=
  tryModelsLoop oracle (model :: fallback_models)

/-- Terminal stream events. -/
def isTerminalEv : Ev → Bool
  | .streamComplete => true
  | .streamFailed => true
  | _ => false

/-- A well-formed model reply used in pipeline evaluations. -/
def goodProjectText : String :=
  "\x7b\"project\": \x7b\"files\": \x7b\"a.txt\": \"hi\"\x7d\x7d\x7d"

theorem normalize_model_family_cases (mf : Option String) :
    normalize_model_family mf = "gemini" ∨ normalize_model_family mf = "claude" ∨
      normalize_model_family mf = "gpt" := by
  cases mf with
  | none => left; rfl
  | some s =>
      unfold normalize_model_family
      by_cases h : s = ""
      · simp [h]
      · simp only [h, if_false, MODEL_FAMILY_MAP, lookupAssoc]
        split
        · simp
        · split
          · simp
          · split
            · simp
            · split
              · simp
              · split
                · simp
                · simp

theorem routerEntryFor_cases (mf : Option String) :
    routerEntryFor mf = ⟨"gemini-2.0-flash-lite", "gemini-3-pro-preview", "gemini"⟩ ∨
    routerEntryFor mf = ⟨"claude-haiku-4-5-20251001", "claude-opus-4-5-20251101", "anthropic"⟩ ∨
    routerEntryFor mf = ⟨"gpt-4o-mini", "gpt-5.2", "openai"⟩ := by
  unfold routerEntryFor
  rcases normalize_model_family_cases mf with h | h | h <;>
    rw [h] <;> simp [ROUTER_CONFIG, lookupAssoc]

/-- C4: every model-family input that is unrecognized, empty, or absent
resolves (through `normalize_model_family` and the `get_router_model` /
`get_main_model` / `get_provider` lookups built on it) to the default
`gemini` family's mapping; recognized names are accepted case-insensitively;
the lookups are total functions, so no input string errors. -/
theorem routing_unknown_family_defaults_to_gemini :
    (normalize_model_family none = "gemini") ∧
    (normalize_model_family (some "") = "gemini") ∧
    (∀ s : String, lookupAssoc (pyStrip (pyLower s)) MODEL_FAMILY_MAP = none →
      normalize_model_family (some s) = "gemini" ∧
      get_router_model (some s) = "gemini-2.0-flash-lite" ∧
      get_main_model (some s) = "gemini-3-pro-preview" ∧
      get_provider (some s) = "gemini") ∧
    (∀ mf : Option String,
      get_router_model mf = "gemini-2.0-flash-lite" ∨
      get_router_model mf = "claude-haiku-4-5-20251001" ∨
      get_router_model mf = "gpt-4o-mini") ∧
    (get_router_model (some "ANTHROPIC") = "claude-haiku-4-5-20251001") ∧
    (get_main_model (some "OpenAI") = get_main_model (some "openai")) ∧
    (get_provider (some "  Gemini  ") = "gemini") := by
  refine ⟨rfl, rfl, ?_, ?_, by decide, by decide, by decide⟩
  · intro s h
    have hn : normalize_model_family (some s) = "gemini" := by
      unfold normalize_model_family
      by_cases hs : s = ""
      · simp [hs]
      · simp [hs, h]
    refine ⟨hn, ?_, ?_, ?_⟩ <;>
      simp [get_router_model, get_main_model, get_provider, routerEntryFor, hn,
        ROUTER_CONFIG, lookupAssoc]
  · intro mf
    rcases routerEntryFor_cases mf with h | h | h <;>
      simp [get_router_model, h]

/-- C4 witness: the unrecognized family `"llama-3"` resolves to the gemini
mapping through all three lookups. -/
theorem routing_unknown_family_witness :
    normalize_model_family (some "llama-3") = "gemini" ∧
    get_router_model (some "llama-3") = "gemini-2.0-flash-lite" ∧
    get_main_model (some "llama-3") = "gemini-3-pro-preview" ∧
    get_provider (some "llama-3") = "gemini" :=
  routing_unknown_family_defaults_to_gemini.2.2.1 "llama-3" (by decide)

/-- C5: `get_modification_model` returns the family's main model exactly when
the lower-cased complexity is `"complex"`, and the family's router model for
every other complexity, including absent (`None`, treated as `"medium"`) and
unrecognized strings; every family row of the static `ROUTER_CONFIG` table
carries exactly one router model and one main model (distinct keys, distinct
models). -/
theorem modification_model_complexity_selection :
    (∀ (mf : Option String) (c : String), pyLower c = "complex" →
      get_modification_model mf (some c) = get_main_model mf) ∧
    (∀ (mf : Option String) (c : String), pyLower c ≠ "complex" →
      get_modification_model mf (some c) = get_router_model mf) ∧
    (∀ mf : Option String, get_modification_model mf none = get_router_model mf) ∧
    (∀ mf : Option String, get_router_model mf ≠ get_main_model mf) ∧
    (ROUTER_CONFIG.map Prod.fst).Nodup := by
  refine ⟨?_, ?_, fun mf => rfl, ?_, by decide⟩
  · intro mf c h
    have hc : c ≠ "" := by
      intro he
      rw [he] at h
      exact absurd h (by decide)
    simp [get_modification_model, hc, h]
  · intro mf c h
    unfold get_modification_model
    by_cases hc : c = ""
    · simp [hc]
    · simp [hc, h]
  · intro mf
    rcases routerEntryFor_cases mf with h | h | h <;>
      simp [get_router_model, get_main_model, h]

/-- C5 witness: complexity `"CoMpLeX"` selects the Anthropic main model,
complexity `"medium"` the gpt router model, and both evaluate on the table. -/
theorem modification_model_complexity_witness :
    get_modification_model (some "Anthropic") (some "CoMpLeX") = get_main_model (some "Anthropic") ∧
    get_modification_model (some "gpt") (some "medium") = get_router_model (some "gpt") ∧
    get_main_model (some "Anthropic") = "claude-opus-4-5-20251101" ∧
    get_router_model (some "gpt") = "gpt-4o-mini" :=
  ⟨modification_model_complexity_selection.1 (some "Anthropic") "CoMpLeX" (by decide),
   modification_model_complexity_selection.2.1 (some "gpt") "medium" (by decide),
   by decide, by decide⟩

theorem pushHistory_eq_keepLast (buf : List Event) (e : Event) :
    pushHistory buf e = keepLast1000 (buf ++ [e]) := by
  simp only [pushHistory, keepLast1000]
  split
  · rfl
  · rename_i h
    have h0 : (buf ++ [e]).length - 1000 = 0 := by
      simp only [List.length_append, List.length_singleton] at h ⊢
      omega
    rw [h0, List.drop_zero]

theorem keepLast_append_single (l : List Event) (e : Event) :
    keepLast1000 (keepLast1000 l ++ [e]) = keepLast1000 (l ++ [e]) := by
  unfold keepLast1000
  by_cases h : l.length ≤ 1000
  · have h0 : l.length - 1000 = 0 := by omega
    simp [h0]
  · have hlen : (l.drop (l.length - 1000)).length = 1000 := by
      simp; omega
    have hlen2 : (l.drop (l.length - 1000) ++ [e]).length = 1001 := by
      simp [hlen]
    rw [hlen2]
    have h11 : (1001 : ℕ) - 1000 = 1 := by omega
    rw [h11]
    have h1 : (1 : ℕ) ≤ (l.drop (l.length - 1000)).length := by omega
    have h2 : l.length + 1 - 1000 ≤ l.length := by omega
    rw [List.drop_append_of_le_length h1, List.drop_drop]
    have hl : (l ++ [e]).length = l.length + 1 := by simp
    rw [hl, List.drop_append_of_le_length h2]
    have : l.length - 1000 + 1 = l.length + 1 - 1000 := by omega
    rw [this]

theorem foldl_pushHistory_keepLast (es : List Event) :
    ∀ l : List Event, es.foldl pushHistory (keepLast1000 l) = keepLast1000 (l ++ es) := by
  induction es with
  | nil => intro l; simp
  | cons e es ih =>
      intro l
      have step : pushHistory (keepLast1000 l) e = keepLast1000 (l ++ [e]) := by
        rw [pushHistory_eq_keepLast, keepLast_append_single]
      calc (e :: es).foldl pushHistory (keepLast1000 l)
          = es.foldl pushHistory (keepLast1000 (l ++ [e])) := by
            simp [List.foldl_cons, step]
        _ = keepLast1000 ((l ++ [e]) ++ es) := ih (l ++ [e])
        _ = keepLast1000 (l ++ e :: es) := by simp

theorem publishAll_all_events (es : List Event) :
    ∀ st : StreamState, (publishAll st es).all_events = es.foldl pushHistory st.all_events := by
  induction es with
  | nil => intro st; simp [publishAll]
  | cons e es ih =>
      intro st
      simp only [publishAll, List.foldl_cons]
      have := ih (broadcast_event st e)
      simp only [publishAll] at this
      rw [this]
      rfl

/-- C2: after every `broadcast_event` the history buffer holds at most 1000
events, and publishing 1001 events into an empty-history manager leaves
exactly the newest 1000 in the buffer, in original emission order (the oldest
one evicted). -/
theorem history_buffer_bounded :
    (∀ (st : StreamState) (e : Event), (broadcast_event st e).all_events.length ≤ 1000) ∧
    (∀ (st : StreamState) (es : List Event), st.all_events = [] → es.length = 1001 →
      (publishAll st es).all_events = es.drop 1 ∧ (es.drop 1).length = 1000) := by
  constructor
  · intro st e
    show (pushHistory st.all_events e).length ≤ 1000
    simp only [pushHistory]
    split
    · rename_i h
      simp only [List.length_drop]
      omega
    · rename_i h
      simp only [not_lt] at h
      exact h
  · intro st es hst hlen
    have hbuf : (publishAll st es).all_events = keepLast1000 es := by
      rw [publishAll_all_events, hst]
      have : ([] : List Event) = keepLast1000 [] := rfl
      rw [this, foldl_pushHistory_keepLast]
      simp
    constructor
    · rw [hbuf]
      unfold keepLast1000
      rw [hlen]
    · rw [List.length_drop, hlen]

/-- C2 witness: publishing the 1001 distinct `testEvents1001` into a fresh
manager leaves exactly the newest 1000 in order. -/
theorem history_buffer_bounded_witness :
    testEvents1001.Nodup ∧ testEvents1001.length = 1001 ∧
    (publishAll ⟨[], []⟩ testEvents1001).all_events = testEvents1001.drop 1 ∧
    (testEvents1001.drop 1).length = 1000 :=
  ⟨List.Nodup.map (fun a b h => by simpa using congrArg Event.event_id h) (List.nodup_range 1001),
   by simp [testEvents1001],
   history_buffer_bounded.2 ⟨[], []⟩ testEvents1001 rfl (by simp [testEvents1001])⟩

theorem split2Key_p1 : split2Key (get_stream_key (some "p1") none none) = ("p1", "*", "*") := rfl

theorem get_stream_key_model_data (m : String) (hm : m ≠ "") :
    (get_stream_key none none (some m)).data = '*' :: ':' :: '*' :: ':' :: m.data := by
  simp only [get_stream_key, pyOrDefault, if_neg hm]
  rfl

theorem split2Key_wildcard_model (m : String) (hm : m ≠ "") :
    split2Key (get_stream_key none none (some m)) = ("*", "*", m) := by
  unfold split2Key
  rw [get_stream_key_model_data m hm]
  simp only [splitFirstAux]
  norm_num
  rfl

theorem broadcast_event_singleton (key : String) (q hist : List Event) (e : Event) :
    (broadcast_event ⟨[(key, [q])], hist⟩ e).streams =
      [(key, if keyMatch (split2Key key).1 (split2Key key).2.1 (split2Key key).2.2 e
             then [q ++ [e]] else [q])] := by
  simp only [broadcast_event, List.map_cons, List.map_nil]
  by_cases h : keyMatch (split2Key key).1 (split2Key key).2.1 (split2Key key).2.2 e
  · simp [h]
  · simp [h]

/-- C3: `broadcast_event` delivers a published event to a registered
subscriber exactly when the subscriber's filter matches on its non-wildcard
fields: a subscriber keyed on `project_id="p1"` receives `p1` events and not
`p2` events; when the filter specifies a model name and the event carries
one, delivery happens exactly under case-insensitive equality of the two;
and an all-wildcard subscriber receives every event. -/
theorem broadcast_delivery_matches_filter :
    (∀ (hist q : List Event) (e : Event), e.project_id = some "p1" →
      (broadcast_event ⟨[(get_stream_key (some "p1") none none, [q])], hist⟩ e).streams
        = [(get_stream_key (some "p1") none none, [q ++ [e]])]) ∧
    (∀ (hist q : List Event) (e : Event), e.project_id = some "p2" →
      (broadcast_event ⟨[(get_stream_key (some "p1") none none, [q])], hist⟩ e).streams
        = [(get_stream_key (some "p1") none none, [q])]) ∧
    (∀ (hist q : List Event) (e : Event) (s m : String),
      eventModelName e = some s → s ≠ "" → m ≠ "" → m ≠ "*" →
      ((broadcast_event ⟨[(get_stream_key none none (some m), [q])], hist⟩ e).streams
        = [(get_stream_key none none (some m), [q ++ [e]])] ↔ pyLower s = pyLower m)) ∧
    (∀ (hist q : List Event) (e : Event),
      (broadcast_event ⟨[(get_stream_key none none none, [q])], hist⟩ e).streams
        = [(get_stream_key none none none, [q ++ [e]])]) := by
  refine ⟨?_, ?_, ?_, ?_⟩
  · intro hist q e he
    rw [broadcast_event_singleton, split2Key_p1]
    simp [keyMatch, he]
  · intro hist q e he
    rw [broadcast_event_singleton, split2Key_p1]
    simp [keyMatch, he]
  · intro hist q e s m hs hs' hm hmstar
    rw [broadcast_event_singleton, split2Key_wildcard_model m hm]
    have hk : keyMatch "*" "*" m e = (pyLower s == pyLower m) := by
      simp [keyMatch, hs, hs', hmstar, pyTruthy]
    rw [hk]
    by_cases hlow : pyLower s = pyLower m
    · simp [hlow]
    · have hff : (pyLower s == pyLower m) = false := by
        simp [hlow]
      rw [hff]
      simp [hlow]
  · intro hist q e
    have hsplit : split2Key (get_stream_key none none none) = ("*", "*", "*") := rfl
    rw [broadcast_event_singleton, hsplit]
    simp [keyMatch]

/-- C3 witness: concrete deliveries — `p1` event delivered to the `p1`
subscriber, `p2` event not delivered, model name matched case-insensitively
(`GPT-4o` vs filter `gpt-4O`), and an all-wildcard subscriber receives a
bare event. -/
theorem broadcast_delivery_matches_filter_witness :
    (broadcast_event ⟨[(get_stream_key (some "p1") none none, [[]])], []⟩ evP1).streams
      = [(get_stream_key (some "p1") none none, [[evP1]])] ∧
    (broadcast_event ⟨[(get_stream_key (some "p1") none none, [[]])], []⟩ evP2).streams
      = [(get_stream_key (some "p1") none none, [[]])] ∧
    (broadcast_event ⟨[(get_stream_key none none (some "gpt-4O"), [[]])], []⟩ evGpt).streams
      = [(get_stream_key none none (some "gpt-4O"), [[evGpt]])] ∧
    (broadcast_event ⟨[(get_stream_key none none none, [[]])], []⟩ evNoModel).streams
      = [(get_stream_key none none none, [[evNoModel]])] := by
  refine ⟨?_, ?_, ?_, ?_⟩
  · simpa using broadcast_delivery_matches_filter.1 [] [] evP1 rfl
  · simpa using broadcast_delivery_matches_filter.2.1 [] [] evP2 rfl
  · simpa using
      (broadcast_delivery_matches_filter.2.2.1 [] [] evGpt "GPT-4o" "gpt-4O" rfl
        (by decide) (by decide) (by decide)).mpr (by decide)
  · simpa using broadcast_delivery_matches_filter.2.2.2 [] [] evNoModel

/-- C10: an event that carries no model name (no top-level `model_name` and
none in its payload — or only empty strings) passes a model-name filter in
both `broadcast_event` and `get_historical_events`: the model filter only
excludes events carrying a different model name, never events carrying
none. -/
theorem model_name_filter_skips_absent :
    (∀ (hist q : List Event) (e : Event) (m : String), m ≠ "" →
      pyTruthy (eventModelName e) = false →
      (broadcast_event ⟨[(get_stream_key none none (some m), [q])], hist⟩ e).streams
        = [(get_stream_key none none (some m), [q ++ [e]])]) ∧
    (∀ (st : StreamState) (e : Event) (m : String),
      e ∈ st.all_events → pyTruthy (eventModelName e) = false →
      e ∈ get_historical_events st none none (some m)) := by
  constructor
  · intro hist q e m hm hfalsy
    rw [broadcast_event_singleton, split2Key_wildcard_model m hm]
    simp [keyMatch, hfalsy]
  · intro st e m he hfalsy
    unfold get_historical_events
    apply List.mem_filter.mpr
    refine ⟨he, ?_⟩
    simp only [pyTruthy] at hfalsy
    cases hopt : eventModelName e with
    | none => simp [pyTruthy, hopt]
    | some s =>
        rw [hopt] at hfalsy
        have hs : s = "" := by simpa using hfalsy
        simp [pyTruthy, hopt, hs]

/-- C10 witness: an event with no model name is delivered to a subscriber
filtering on `gemini-2.0-flash-lite` and returned by a historical query
filtering on the same model. -/
theorem model_name_filter_skips_absent_witness :
    (broadcast_event ⟨[(get_stream_key none none (some "gemini-2.0-flash-lite"), [[]])], []⟩
        evNoModel).streams
      = [(get_stream_key none none (some "gemini-2.0-flash-lite"), [[evNoModel]])] ∧
    evNoModel ∈ get_historical_events ⟨[], [evNoModel]⟩ none none
        (some "gemini-2.0-flash-lite") := by
  constructor
  · simpa using
      model_name_filter_skips_absent.1 [] [] evNoModel "gemini-2.0-flash-lite"
        (by decide) (by decide)
  · exact model_name_filter_skips_absent.2 ⟨[], [evNoModel]⟩ evNoModel
      "gemini-2.0-flash-lite" (by simp) (by decide)

/-- C6: `parse_project_json` never raises: it is a total `Option`-valued
function (the Python body is wrapped in a catch-all `except` returning
`None`), it returns `none` on empty input, on input with no JSON region, and
on truncated-mid-object input, and whenever the candidate-selection and all
staged parse attempts (direct, repaired, retried) fail it returns `none`. -/
theorem parse_project_json_never_raises :
    (parse_project_json "" = none) ∧
    (parse_project_json "The model did not return any code." = none) ∧
    (parse_project_json "\x7b\"project\": \x7b\"files\": \x7b\"a.txt\": \"hi\"" = none) ∧
    (parse_project_json "Result: \x7b\"project\": \x7b\"files\": \x7b\x7d" = none) ∧
    (∀ text : String, candidate_json_str text = none → parse_project_json text = none) ∧
    (∀ text js : String, candidate_json_str text = some js →
      parse_json_with_fallback js = none → json_loads js = none →
      parse_project_json text = none) := by
  refine ⟨rfl, rfl, rfl, rfl, ?_, ?_⟩
  · intro text hc
    by_cases ht : text = ""
    · simp [parse_project_json, ht]
    · simp [parse_project_json, ht, hc]
  · intro text js hc h1 h2
    have ht : text ≠ "" := by
      intro h
      rw [h] at hc
      exact absurd hc (by simp [candidate_json_str, extract_json_from_text, splitAtFence,
        pyFindChar, pyRFindChar])
    simp [parse_project_json, ht, hc, h1, h2]

/-- C6 witness: every staged attempt fails on a plain-prose reply, and
`parse_project_json` returns `none` for it. -/
theorem parse_project_json_never_raises_witness :
    candidate_json_str "Sorry, I cannot help with that." = none ∧
    parse_project_json "Sorry, I cannot help with that." = none :=
  ⟨rfl, parse_project_json_never_raises.2.2.2.2.1 "Sorry, I cannot help with that." rfl⟩

theorem dictGet_insertField_self (fields : List (String × JsonValue)) (k : String) (v : JsonValue) :
    dictGet k (insertField fields k v) = some v := by
  induction fields with
  | nil => simp [insertField, dictGet]
  | cons kv rest ih =>
      obtain ⟨k', v'⟩ := kv
      simp only [insertField]
      by_cases h : k' = k
      · simp [dictGet, h]
      · simp [dictGet, h, ih]

/-- C7 (amended): the extractor's shape normalization accepts all three
result shapes — `\x7b"project": ...\x7d`, a list containing such an object,
and an already-inner object detected by a `files` field — returning the
inner object; `normalize_project` merges a `files` list of single-key
objects into one mapping; a non-list, non-mapping `files` value raises an
error, while a `files` list with non-object items has those items silently
dropped (merged into a possibly empty mapping) rather than raising. -/
theorem project_shape_normalization :
    (∀ (fields pf : List (String × JsonValue)),
      dictGet "project" fields = some (.obj pf) →
      classify_raw (.obj fields) = some (.obj pf)) ∧
    (∀ (pre rest : List JsonValue) (fields : List (String × JsonValue)) (v : JsonValue),
      (∀ j ∈ pre, hasProjectKey j = false) → dictGet "project" fields = some v →
      classify_raw (.arr (pre ++ .obj fields :: rest)) = some v) ∧
    (∀ (fields : List (String × JsonValue)) (f : JsonValue),
      dictGet "project" fields = none → dictGet "files" fields = some f →
      classify_raw (.obj fields) = some (.obj fields)) ∧
    (normalize_project
        (.obj [("files", .arr [.obj [("a.txt", .str "hi")], .obj [("b.txt", .str "yo")]])])
      = Except.ok (.obj [("files", .obj [("a.txt", .str "hi"), ("b.txt", .str "yo")])])) ∧
    (∀ (fields : List (String × JsonValue)) (s : String),
      dictGet "project" fields = none → dictGet "files" fields = some (.str s) →
      normalize_project (.obj fields) = Except.error "ValueError: project.files must be a dict") ∧
    (∀ (fields : List (String × JsonValue)) (items : List JsonValue),
      dictGet "project" fields = none → dictGet "files" fields = some (.arr items) →
      normalize_project (.obj fields)
        = Except.ok (.obj (insertField fields "files" (.obj (mergeFileItems items))))) := by
  refine ⟨?_, ?_, ?_, rfl, ?_, ?_⟩
  · intro fields pf h
    simp [classify_raw, h]
  · intro pre rest fields v hpre h
    induction pre with
    | nil => simp [classify_raw, findProjectInList, h]
    | cons j pre ih =>
        have hj : hasProjectKey j = false := hpre j (by simp)
        have hpre' : ∀ j' ∈ pre, hasProjectKey j' = false := fun j' hj' => hpre j' (by simp [hj'])
        have ihres := ih hpre'
        simp only [classify_raw] at ihres ⊢
        cases j with
        | obj f =>
            simp only [hasProjectKey] at hj
            cases hdg : dictGet "project" f with
            | some w => rw [hdg] at hj; simp at hj
            | none => simp [findProjectInList, hdg, ihres]
        | null => simpa [findProjectInList] using ihres
        | bool b => simpa [findProjectInList] using ihres
        | num n => simpa [findProjectInList] using ihres
        | str s => simpa [findProjectInList] using ihres
        | arr l => simpa [findProjectInList] using ihres
  · intro fields f h1 h2
    simp [classify_raw, h1, h2]
  · intro fields s h1 h2
    have hc : (dictGet "project" fields).isSome = false := by simp [h1]
    simp [normalize_project, normListHead, normUnwrapProject, pyContains, hc,
      normFixFiles, pyGet, h2, normCheckFiles]
  · intro fields items h1 h2
    have hc : (dictGet "project" fields).isSome = false := by simp [h1]
    simp [normalize_project, normListHead, normUnwrapProject, pyContains, hc,
      normFixFiles, pyGet, h2, pySetField, normCheckFiles, dictGet_insertField_self]

/-- C7 counterexample: a `files` value of `[5]` — a non-mapping shape that is
not a list of single-key objects — does not raise: `normalize_project`
returns it unchanged with an empty `files` mapping, contradicting the claim
that any non-mapping `files` shape other than a list of single-key objects
raises an error. -/
theorem normalize_project_files_nonobject_list_no_error :
    normalize_project (.obj [("files", .arr [.num 5])])
      = Except.ok (.obj [("files", .obj [])]) := rfl

/-- C7 witness: the wrapped, listed and inner shapes all normalize to the
inner object on concrete inputs, and a string-valued `files` raises. -/
theorem project_shape_normalization_witness :
    classify_raw (.obj [("project", .obj [("files", .obj [])])]) = some (.obj [("files", .obj [])]) ∧
    classify_raw (.arr [.str "x", .obj [("project", .obj [("files", .obj [])])]])
      = some (.obj [("files", .obj [])]) ∧
    classify_raw (.obj [("files", .obj []), ("name", .str "demo")])
      = some (.obj [("files", .obj []), ("name", .str "demo")]) ∧
    normalize_project (.obj [("files", .str "oops")])
      = Except.error "ValueError: project.files must be a dict" :=
  ⟨project_shape_normalization.1 _ _ rfl,
   project_shape_normalization.2.1 [.str "x"] [] _ _ (by simp [hasProjectKey]) rfl,
   project_shape_normalization.2.2.1 _ (.obj []) rfl rfl,
   project_shape_normalization.2.2.2.2.1 _ "oops" rfl rfl⟩

theorem generateFinish_calls (evs : List Ev) (p : Option JsonValue) (saveOk : Bool) (c : Nat) :
    (generateFinish evs p saveOk c).calls = c := by
  unfold generateFinish
  split
  · split <;> rfl
  · rfl

theorem modifyDone_calls (evs : List Ev) (p : Option JsonValue) (saveOk : Bool) (c : Nat) :
    (modifyDone evs p saveOk c).calls = c := by
  unfold modifyDone
  split
  · split <;> rfl
  · rfl

theorem modifyFallback_calls_le (mm mainm : String) (evs : List Ev) (p : Option JsonValue)
    (r3 : ProviderResult) (saveOk : Bool) (c : Nat) :
    (modifyFallback mm mainm evs p r3 saveOk c).calls ≤ c + 1 := by
  unfold modifyFallback
  split
  · rw [modifyDone_calls]; omega
  · split
    · cases r3 with
      | err m => simp
      | ok out3 => rw [modifyDone_calls]
    · rw [modifyDone_calls]; omega

theorem modifyFallback_calls_eq (mm mainm : String) (evs : List Ev) (p : Option JsonValue)
    (r3 : ProviderResult) (saveOk : Bool) (c : Nat)
    (h : (modifyFallback mm mainm evs p r3 saveOk c).calls = c + 1) : mm ≠ mainm := by
  unfold modifyFallback at h
  split at h
  · rw [modifyDone_calls] at h; omega
  · split at h
    · rename_i hne; exact hne
    · rw [modifyDone_calls] at h; omega

/-- C1: evaluation at the failing inputs.  A `modify_project` run whose
provider outputs never parse walks the whole retry ladder, ends in a
terminal parse failure, and emits zero terminal stream events (neither
`stream.complete` nor `stream.failed`); a successful modification run also
emits zero; a `generate_project` run whose provider call raises emits zero.
By contrast, the generation flow's parse-failure and success paths each emit
exactly one terminal event, `stream.failed` resp. `stream.complete`, last. -/
theorem pipeline_terminal_event_evaluation :
    ((modifyRun "anthropic" "claude-haiku-4-5-20251001" "claude-opus-4-5-20251101"
        (.ok "not json") (.ok "still not json") (.ok "nope") true).outcome
      = GenOutcome.parseFailure) ∧
    ((modifyRun "anthropic" "claude-haiku-4-5-20251001" "claude-opus-4-5-20251101"
        (.ok "not json") (.ok "still not json") (.ok "nope") true).trace.countP
        (fun e => isTerminalEv e) = 0) ∧
    ((modifyRun "gemini" "gemini-2.0-flash-lite" "gemini-3-pro-preview"
        (.ok goodProjectText) (.ok "x") (.ok "x") true).trace.countP
        (fun e => isTerminalEv e) = 0) ∧
    (∃ v, (modifyRun "gemini" "gemini-2.0-flash-lite" "gemini-3-pro-preview"
        (.ok goodProjectText) (.ok "x") (.ok "x") true).outcome = GenOutcome.success v) ∧
    ((generateRun "gemini" false 0 (.err "ConnectionError") (.ok "x") true).trace.countP
        (fun e => isTerminalEv e) = 0) ∧
    ((generateRun "gemini" false 0 (.err "ConnectionError") (.ok "x") true).outcome
      = GenOutcome.providerError "ConnectionError") ∧
    ((generateRun "gemini" false 0 (.ok "bad") (.ok "bad") true).trace.countP
        (fun e => isTerminalEv e) = 1) ∧
    ((generateRun "gemini" false 0 (.ok "bad") (.ok "bad") true).trace.getLast?
      = some Ev.streamFailed) ∧
    ((generateRun "gemini" false 0 (.ok goodProjectText) (.ok "x") true).trace.countP
        (fun e => isTerminalEv e) = 1) ∧
    ((generateRun "gemini" false 0 (.ok goodProjectText) (.ok "x") true).trace.getLast?
      = some Ev.streamComplete) :=
  ⟨rfl, rfl, rfl, ⟨_, rfl⟩, rfl, rfl, rfl, rfl, rfl, rfl⟩

/-- C8: the retry ladder is bounded exactly as claimed — the generation flow
makes at most 2 provider calls and makes a second call only when the first
call returned text that failed extraction and the provider is not the
primary (gemini) one; the modification flow makes at most 3 provider calls
and makes a third only for a non-gemini provider whose selected modification
model differs from the family's main model. -/
theorem retry_ladder_bounded :
    (∀ (provider : String) (askQ : Bool) (n : Nat) (r1 r2 : ProviderResult) (saveOk : Bool),
      (generateRun provider askQ n r1 r2 saveOk).calls ≤ 2) ∧
    (∀ (provider : String) (askQ : Bool) (n : Nat) (r1 r2 : ProviderResult) (saveOk : Bool),
      (generateRun provider askQ n r1 r2 saveOk).calls = 2 →
      provider ≠ "gemini" ∧
        ∃ t, r1 = ProviderResult.ok t ∧ pyTruthyJson (parse_project_json t) = false) ∧
    (∀ (provider mm mainm : String) (r1 r2 r3 : ProviderResult) (saveOk : Bool),
      (modifyRun provider mm mainm r1 r2 r3 saveOk).calls ≤ 3) ∧
    (∀ (provider mm mainm : String) (r1 r2 r3 : ProviderResult) (saveOk : Bool),
      (modifyRun provider mm mainm r1 r2 r3 saveOk).calls = 3 →
      provider ≠ "gemini" ∧ mm ≠ mainm) := by
  refine ⟨?_, ?_, ?_, ?_⟩
  · intro provider askQ n r1 r2 saveOk
    cases r1 with
    | err m => simp [generateRun]
    | ok out1 =>
        simp only [generateRun]
        split
        · cases r2 with
          | err m => simp
          | ok out2 => simp [generateFinish_calls]
        · simp [generateFinish_calls]
  · intro provider askQ n r1 r2 saveOk h
    cases r1 with
    | err m => simp [generateRun] at h
    | ok out1 =>
        by_cases hcond :
            ¬ pyTruthyJson (parse_project_json out1) = true ∧ provider ≠ "gemini"
        · exact ⟨hcond.2, out1, rfl, by simpa using hcond.1⟩
        · exfalso
          simp only [generateRun] at h
          rw [if_neg hcond, generateFinish_calls] at h
          omega
  · intro provider mm mainm r1 r2 r3 saveOk
    cases r1 with
    | err m => simp [modifyRun]
    | ok out1 =>
        simp only [modifyRun]
        split
        · cases r2 with
          | err m => simp
          | ok out2 => exact modifyFallback_calls_le mm mainm _ _ r3 saveOk 2
        · have := modifyFallback_calls_le mm mainm
            [Ev.chatMessage "Starting project modification..."]
            (parse_project_json out1) r3 saveOk 1
          omega
  · intro provider mm mainm r1 r2 r3 saveOk h
    cases r1 with
    | err m => simp [modifyRun] at h
    | ok out1 =>
        by_cases hcond :
            ¬ pyTruthyJson (parse_project_json out1) = true ∧ provider ≠ "gemini"
        · refine ⟨hcond.2, ?_⟩
          simp only [modifyRun] at h
          rw [if_pos hcond] at h
          cases r2 with
          | err m => simp at h
          | ok out2 =>
              rw [show (3 : ℕ) = 2 + 1 from rfl] at h
              exact modifyFallback_calls_eq _ _ _ _ _ _ _ h
        · exfalso
          simp only [modifyRun] at h
          rw [if_neg hcond] at h
          have := modifyFallback_calls_le mm mainm
            [Ev.chatMessage "Starting project modification..."]
            (parse_project_json out1) r3 saveOk 1
          omega

/-- C8 witness: a non-gemini generation run with unparseable output makes
exactly 2 calls, and a non-gemini modification run with unparseable output
and distinct router/main models makes exactly 3. -/
theorem retry_ladder_bounded_witness :
    (generateRun "anthropic" false 0 (.ok "junk") (.ok "junk") true).calls = 2 ∧
    ("anthropic" ≠ "gemini" ∧
      ∃ t, ProviderResult.ok "junk" = ProviderResult.ok t ∧
        pyTruthyJson (parse_project_json t) = false) ∧
    (modifyRun "anthropic" "claude-haiku-4-5-20251001" "claude-opus-4-5-20251101"
        (.ok "junk") (.ok "junk") (.ok "junk") true).calls = 3 ∧
    ("anthropic" ≠ "gemini" ∧ "claude-haiku-4-5-20251001" ≠ "claude-opus-4-5-20251101") :=
  ⟨rfl,
   retry_ladder_bounded.2.1 "anthropic" false 0 (.ok "junk") (.ok "junk") true rfl,
   rfl,
   retry_ladder_bounded.2.2.2 "anthropic" "claude-haiku-4-5-20251001"
     "claude-opus-4-5-20251101" (.ok "junk") (.ok "junk") (.ok "junk") true rfl⟩

theorem retry_msg_not_in_prelude (askQ : Bool) (n : Nat) :
    Ev.chatMessage "Retrying with stricter JSON prompt..." ∉ generatePrelude askQ n := by
  simp [generatePrelude, List.mem_replicate]

/-- C9: a raised provider call is fatal for the attempt: the adapter's
`generate_text` surfaces the error as-is when called with no fallback
models, the generation pipeline ends the run at one call with a provider
error and never emits the stricter-prompt retry message, and a second
(stricter-prompt) call happens only when the first call returned text whose
extraction failed. -/
theorem provider_error_fatal_no_strict_retry :
    (∀ (oracle : String → ProviderResult) (model m : String),
      oracle model = ProviderResult.err m → generate_text oracle model [] = Except.error m) ∧
    (∀ (provider : String) (askQ : Bool) (n : Nat) (m : String) (r2 : ProviderResult)
        (saveOk : Bool),
      (generateRun provider askQ n (.err m) r2 saveOk).outcome = GenOutcome.providerError m ∧
      (generateRun provider askQ n (.err m) r2 saveOk).calls = 1 ∧
      Ev.chatMessage "Retrying with stricter JSON prompt..." ∉
        (generateRun provider askQ n (.err m) r2 saveOk).trace) ∧
    (∀ (provider : String) (askQ : Bool) (n : Nat) (r1 r2 : ProviderResult) (saveOk : Bool),
      2 ≤ (generateRun provider askQ n r1 r2 saveOk).calls →
      ∃ t, r1 = ProviderResult.ok t ∧ pyTruthyJson (parse_project_json t) = false) := by
  refine ⟨?_, ?_, ?_⟩
  · intro oracle model m h
    simp [generate_text, tryModelsLoop, h]
  · intro provider askQ n m r2 saveOk
    exact ⟨rfl, rfl, retry_msg_not_in_prelude askQ n⟩
  · intro provider askQ n r1 r2 saveOk h
    cases r1 with
    | err m => simp [generateRun] at h
    | ok out1 =>
        by_cases hcond :
            ¬ pyTruthyJson (parse_project_json out1) = true ∧ provider ≠ "gemini"
        · exact ⟨out1, rfl, by simpa using hcond.1⟩
        · exfalso
          simp only [generateRun] at h
          rw [if_neg hcond, generateFinish_calls] at h
          omega

/-- C9 witness: a quota error from the provider is surfaced unchanged by the
adapter and ends a generation run after one call with no stricter-prompt
retry; conversely a run that did reach 2 calls started from parseable-free
text. -/
theorem provider_error_fatal_witness :
    generate_text (fun _ => ProviderResult.err "429 quota exceeded") "gemini-3-pro-preview" []
      = Except.error "429 quota exceeded" ∧
    (generateRun "openai" false 0 (.err "401 auth") (.ok "x") true).calls = 1 ∧
    (2 ≤ (generateRun "openai" false 0 (.ok "junk") (.ok "junk") true).calls ∧
      ∃ t, ProviderResult.ok "junk" = ProviderResult.ok t ∧
        pyTruthyJson (parse_project_json t) = false) :=
  ⟨provider_error_fatal_no_strict_retry.1 (fun _ => ProviderResult.err "429 quota exceeded")
      "gemini-3-pro-preview" "429 quota exceeded" rfl,
   (provider_error_fatal_no_strict_retry.2.1 "openai" false 0 "401 auth" (.ok "x") true).2.1,
   by decide,
   provider_error_fatal_no_strict_retry.2.2 "openai" false 0 (.ok "junk") (.ok "junk") true
     (by decide)⟩
